import Mathlib

/-!
Shallow embedding of the coupon / order-lifecycle core of the
ECommerce-Backend repository (Mongoose models `coupon.js`, `order.js`,
controllers `couponController.js`, `orderController.js`).

Modelling conventions:
* JS numbers that carry money become `ℚ`; counters become `ℕ`;
  timestamps become `ℤ` (milliseconds since epoch, as `Date.getTime()`).
* Mongo ObjectIds become `ℕ`.
* JS truthiness is made explicit at each use site: a `Number` field is
  truthy iff nonzero, an optional field is truthy iff present and its
  value truthy, and an object is always truthy.
* `throw` / early `res.status(4xx)` returns become `Except` / dedicated
  result types; asynchronous persistence is modelled by explicit state
  passing, and the one claim about partial failure uses an explicit
  crash point counting how many persistence writes completed.
-/

/-- The `discountType` enum of the coupon schema. -/
inductive DiscountType where
  | percentage
  | fixed
deriving DecidableEq, Repr

/-- The `orderStatus` enum of the order schema. -/
inductive OrderStatus where
  | pending
  | confirmed
  | processing
  | shipped
  | delivered
  | cancelled
  | returned
deriving DecidableEq, Repr

/-- The `returnStatus` enum of the order schema. -/
inductive ReturnStatus where
  | requested
  | approved
  | rejected
  | completed
deriving DecidableEq, Repr

/-- Discriminated failure reasons of the coupon checks.  Each constructor
stands for one literal `reason` string returned by `isValid`,
`canUserUse` or `calculateDiscount` in `coupon.js`. -/
inductive Reason where
  | notActive               -- "Coupon is not active"
  | expired                 -- "Coupon has expired"
  | notYetValid             -- "Coupon not yet valid"
  | globalLimitReached      -- "Coupon usage limit reached"
  | userNotEligible         -- "This coupon is not applicable for you"
  | userLimitReached        -- "You have already used this coupon N time(s)"
  | belowMinimumOrderValue  -- "Minimum order value of ₹N required"
  | noApplicableItems       -- "No applicable products in cart"
  | excludedItemPresent     -- "Some items in cart cannot use this coupon"
deriving DecidableEq, Repr

/-- Result of `isValid` / `canUserUse`: the JS object
`{ valid: true }` or `{ valid: false, reason }`. -/
inductive CheckResult where
  | ok
  | fail (reason : Reason)
deriving DecidableEq, Repr

/-- One entry of a user's `usageHistory` array. -/
structure UsageRecord where
  orderId : ℕ
  discountAmount : ℚ
  usedAt : ℤ
deriving DecidableEq, Repr

/-- One entry of the coupon's `userUsage` array. -/
structure UserUsage where
  user : ℕ
  usedCount : ℕ
  lastUsedAt : Option ℤ
  usageHistory : List UsageRecord
deriving DecidableEq, Repr

/-- The coupon document (`couponSchema`), restricted to the fields the
core logic reads. -/
structure Coupon where
  id : ℕ
  code : String
  discountType : DiscountType
  discountValue : ℚ
  maxDiscountAmount : Option ℚ
  minOrderValue : ℚ
  maxUsageLimit : Option ℕ
  maxUsagePerUser : ℕ
  validFrom : ℤ
  validUntil : ℤ
  isActive : Bool
  applicableCategories : List ℕ
  applicableProducts : List ℕ
  applicableUsers : List ℕ
  usageCount : ℕ
  userUsage : List UserUsage
  freeShipping : Bool
  excludedProducts : List ℕ
deriving DecidableEq, Repr

/-- A cart line item as consumed by `calculateDiscount` (the controller
passes `{ product, quantity }`; only `product` is read). -/
structure CartItem where
  product : ℕ
  quantity : ℕ
deriving DecidableEq, Repr

/-- The success payload of `calculateDiscount`. -/
structure DiscountInfo where
  discountAmount : ℚ
  discountType : DiscountType
  freeShipping : Bool
  originalTotal : ℚ
  finalTotal : ℚ
deriving DecidableEq, Repr

/-- Result of `calculateDiscount`. -/
inductive DiscountResult where
  | reject (reason : Reason)
  | ok (info : DiscountInfo)
deriving DecidableEq, Repr

/-- Whether a `DiscountResult` is the valid case. -/
def DiscountResult.isOk : DiscountResult → Bool
  | .ok _ => true
  | .reject _ => false

/-- The computed discount of a `DiscountResult` (0 on rejection). -/
def DiscountResult.amount : DiscountResult → ℚ
  | .ok info => info.discountAmount
  | .reject _ => 0

/-- `couponSchema.methods.isValid`.  The global-limit guard mirrors the
JS truthiness test `this.maxUsageLimit && this.usageCount >= this.maxUsageLimit`:
an absent or zero `maxUsageLimit` is falsy and skips the check. -/
def Coupon.isValid (c : Coupon) (now : ℤ) : CheckResult :=
  if !c.isActive then .fail .notActive
  else if now > c.validUntil then .fail .expired
  else if now < c.validFrom then .fail .notYetValid
  else
    match c.maxUsageLimit with
    | some m => if m ≠ 0 ∧ c.usageCount ≥ m then .fail .globalLimitReached else .ok
    | none => .ok

/-- `couponSchema.methods.canUserUse`: `isValid`, then the
`applicableUsers` allow-list, then the per-user usage cap (checked only
when a `userUsage` entry for this user exists). -/
def Coupon.canUserUse (c : Coupon) (userId : ℕ) (now : ℤ) : CheckResult :=
  match Coupon.isValid c now with
  | .fail r => .fail r
  | .ok =>
    if c.applicableUsers ≠ [] ∧ ¬ c.applicableUsers.contains userId then
      .fail .userNotEligible
    else
      match c.userUsage.find? (fun e => e.user == userId) with
      | some e => if e.usedCount ≥ c.maxUsagePerUser then .fail .userLimitReached else .ok
      | none => .ok

/-- The discount-amount computation at the end of `calculateDiscount`.
For `percentage`: `cartTotal * value / 100`, capped at
`maxDiscountAmount` when that field is present (comparison with an
absent field is falsy in JS, so no cap is applied then).  For `fixed`:
the value, capped at `cartTotal`.  No rounding is performed. -/
def Coupon.discountAmountCalc (c : Coupon) (cartTotal : ℚ) : ℚ :=
  match c.discountType with
  | .percentage =>
    let d := cartTotal * c.discountValue / 100
    match c.maxDiscountAmount with
    | some m => if d > m then m else d
    | none => d
  | .fixed => if c.discountValue > cartTotal then cartTotal else c.discountValue

/-- `couponSchema.methods.calculateDiscount`: minimum-order gate, then
(only when `applicableProducts` or `excludedProducts` is non-empty) the
product allow-list and exclude-list gates over the cart's product ids,
then the discount computation.  Note the method never reads
`applicableCategories`. -/
def Coupon.calculateDiscount (c : Coupon) (cartTotal : ℚ) (cartItems : List CartItem) :
    DiscountResult :=
  if cartTotal < c.minOrderValue then .reject .belowMinimumOrderValue
  else
    let cartProductIds := cartItems.map (fun i => i.product)
    let hasApplicableProduct :=
      cartProductIds.any (fun i => c.applicableProducts.any (fun p => p == i))
    let hasExcludedProduct :=
      cartProductIds.any (fun i => c.excludedProducts.any (fun p => p == i))
    if (c.applicableProducts.length > 0 ∨ c.excludedProducts.length > 0) ∧
        c.applicableProducts.length > 0 ∧ hasApplicableProduct = false then
      .reject .noApplicableItems
    else if (c.applicableProducts.length > 0 ∨ c.excludedProducts.length > 0) ∧
        c.excludedProducts.length > 0 ∧ hasExcludedProduct = true then
      .reject .excludedItemPresent
    else
      .ok { discountAmount := Coupon.discountAmountCalc c cartTotal
            discountType := c.discountType
            freeShipping := c.freeShipping
            originalTotal := cartTotal
            finalTotal := cartTotal - Coupon.discountAmountCalc c cartTotal }

/-- Replace the first entry of `l` whose `user` is `userId` by its image
under `f` (the JS code mutates the entry returned by `find`). -/
def updateFirst (l : List UserUsage) (userId : ℕ) (f : UserUsage → UserUsage) :
    List UserUsage :=
  match l with
  | [] => []
  | e :: rest => if e.user == userId then f e :: rest else e :: updateFirst rest userId f

/-- `couponSchema.methods.applyCoupon` — the usage-ledger commit.  It
unconditionally increments the global `usageCount`, then increments (or
creates with count 1) the user's entry, stamps `lastUsedAt` and appends
a history record.  No cap is re-checked here. -/
def Coupon.applyCoupon (c : Coupon) (userId orderId : ℕ) (discountAmount : ℚ) (now : ℤ) :
    Coupon :=
  let entry : UsageRecord := { orderId := orderId, discountAmount := discountAmount, usedAt := now }
  match c.userUsage.find? (fun e => e.user == userId) with
  | some _ =>
    { c with
      usageCount := c.usageCount + 1
      userUsage := updateFirst c.userUsage userId (fun e =>
        { e with
          usedCount := e.usedCount + 1
          lastUsedAt := some now
          usageHistory := e.usageHistory ++ [entry] }) }
  | none =>
    { c with
      usageCount := c.usageCount + 1
      userUsage := c.userUsage ++
        [{ user := userId, usedCount := 1, lastUsedAt := some now, usageHistory := [entry] }] }

/-- Return shape of `getUserUsage` (`remainingCount` may go negative in
the JS code, hence `ℤ`). -/
structure UserUsageSummary where
  usedCount : ℕ
  remainingCount : ℤ
  lastUsedAt : Option ℤ
  history : List UsageRecord
deriving DecidableEq, Repr

/-- `couponSchema.methods.getUserUsage` — a pure query over the ledger. -/
def Coupon.getUserUsage (c : Coupon) (userId : ℕ) : UserUsageSummary :=
  match c.userUsage.find? (fun e => e.user == userId) with
  | none =>
    { usedCount := 0, remainingCount := (c.maxUsagePerUser : ℤ), lastUsedAt := none, history := [] }
  | some e =>
    { usedCount := e.usedCount
      remainingCount := (c.maxUsagePerUser : ℤ) - (e.usedCount : ℤ)
      lastUsedAt := e.lastUsedAt
      history := e.usageHistory }

/-- `couponSchema.methods.getStatus` — pure status derivation; a zero
global cap is falsy and never yields the capped "expired". -/
def Coupon.getStatus (c : Coupon) (now : ℤ) : String :=
  if !c.isActive then "inactive"
  else if now > c.validUntil then "expired"
  else if now < c.validFrom then "upcoming"
  else
    match c.maxUsageLimit with
    | some m => if m ≠ 0 ∧ c.usageCount ≥ m then "expired" else "active"
    | none => "active"

/-- A snapshot of an applied coupon denormalized onto the order
(`orderSchema` `coupon` subdocument). -/
structure CouponSnapshot where
  couponId : ℕ
  code : String
  discountType : DiscountType
  discountAmount : ℚ
  freeShipping : Bool
  appliedAt : ℤ
deriving DecidableEq, Repr

/-- An order line item (`OrderItemSchema`), restricted to the fields the
core logic reads. -/
structure OrderItem where
  product : ℕ
  variantSku : Option String
  quantity : ℕ
  price : ℚ
  totalPrice : ℚ
deriving DecidableEq, Repr

/-- The order document (`orderSchema`), restricted to the fields the
core logic reads and writes. -/
structure Order where
  orderId : Option String
  user : ℕ
  items : List OrderItem
  subtotal : ℚ
  shippingCharge : ℚ
  discount : ℚ
  totalAmount : ℚ
  orderStatus : OrderStatus
  deliveredAt : Option ℤ
  isCancelled : Bool
  cancelledAt : Option ℤ
  cancellationReason : Option String
  isReturned : Bool
  returnRequestedAt : Option ℤ
  returnReason : Option String
  returnStatus : Option ReturnStatus
  coupon : Option CouponSnapshot
deriving DecidableEq, Repr

/-- One `increaseStock` call received by the inventory collaborator:
`product.increaseStock(item.quantity, item.variantSku)`. -/
structure StockCall where
  product : ℕ
  quantity : ℕ
  variantSku : Option String
deriving DecidableEq, Repr

/-- `orderSchema.methods.calculateTotal`: recompute `subtotal` from the
line items, take `discount` from the coupon snapshot when present and
truthy (a zero amount is falsy in JS), zero the shipping term under a
free-shipping coupon (the stored `shippingCharge` field itself is not
written), and set `totalAmount = subtotal - discount + shippingCharge`.
No clamping at 0 is performed. -/
def Order.calculateTotal (o : Order) : Order :=
  let subtotal := o.items.foldl (fun s i => s + i.price * (i.quantity : ℚ)) 0
  let discount : ℚ :=
    match o.coupon with
    | some cp => if cp.discountAmount = 0 then 0 else cp.discountAmount
    | none => 0
  let shippingCharge : ℚ :=
    match o.coupon with
    | some cp => if cp.freeShipping then 0 else o.shippingCharge
    | none => o.shippingCharge
  { o with
    subtotal := subtotal
    discount := discount
    totalAmount := subtotal - discount + shippingCharge }

/-- `orderSchema.methods.cancelOrder`.  Throws (as the literal JS
message) when the order is already delivered, before any mutation;
otherwise marks the order cancelled and, for every line item whose
product is found by `findProduct`, issues one `increaseStock` call with
the item's quantity and variant SKU. -/
def Order.cancelOrder (o : Order) (reason : String) (findProduct : ℕ → Bool) (now : ℤ) :
    Except String (Order × List StockCall) :=
  if o.orderStatus = OrderStatus.delivered then
    .error "Cannot cancel delivered order"
  else
    .ok
      ({ o with
          orderStatus := OrderStatus.cancelled
          isCancelled := true
          cancelledAt := some now
          cancellationReason := some reason },
        o.items.filterMap (fun i =>
          if findProduct i.product then
            some { product := i.product, quantity := i.quantity, variantSku := i.variantSku }
          else none))

/-- `orderSchema.methods.requestReturn`.  Only delivered orders may
enter the return flow; `daysSinceDelivery` is
`Math.floor((now - deliveredAt) / 86400000)`, which for the positive
divisor is Euclidean division on `ℤ`.  The return is refused when that
floor exceeds 7.  (A delivered order without a `deliveredAt` timestamp
would crash in JS with a TypeError.) -/
def Order.requestReturn (o : Order) (reason : String) (now : ℤ) : Except String Order :=
  if o.orderStatus ≠ OrderStatus.delivered then
    .error "Can only return delivered orders"
  else
    match o.deliveredAt with
    | none => .error "TypeError: deliveredAt is undefined"
    | some d =>
      let daysSinceDelivery : ℤ := (now - d) / 86400000
      if daysSinceDelivery > 7 then .error "Return period has expired"
      else
        .ok { o with
          isReturned := true
          returnRequestedAt := some now
          returnReason := some reason
          returnStatus := some ReturnStatus.requested }

/-- The JS `String.prototype.padStart` with a single pad character. -/
def jsPadStart (s : String) (targetLength : ℕ) (pad : Char) : String :=
  if targetLength ≤ s.length then s
  else String.mk (List.replicate (targetLength - s.length) pad) ++ s

/-- The order identifier built by the `pre('validate')` hook of
`order.js`: id field format string, year, zero-padded month and day, and
the zero-padded daily sequence `count + 1`, where `count` is the number
of orders already created since local midnight (the hook obtains it with
`countDocuments({ createdAt: { $gte: startOfDay } })`, abstracted here
as a parameter). -/
def generateOrderId (pfx : String) (year month day count : ℕ) : String :=
  pfx ++ toString year ++ jsPadStart (toString month) 2 '0' ++
    jsPadStart (toString day) 2 '0' ++ jsPadStart (toString (count + 1)) 4 '0'

/-- The `pre('validate')` hook: assign a generated `orderId` only when
the order has none. -/
def Order.preValidate (o : Order) (pfx : String) (year month day count : ℕ) : Order :=
  match o.orderId with
  | some _ => o
  | none => { o with orderId := some (generateOrderId pfx year month day count) }

/-- The order constructed by `createOrder` in `orderController.js`:
`subtotal` accumulates `price * quantity` over the items, and
`totalAmount = subtotal + shippingCharge` (the commented-out tax term is
omitted, discount fields at their schema defaults, no coupon, status
`pending`).  The shipping charge is accumulated from the product
catalog, abstracted here as a parameter. -/
def OrderController.createOrder (userId : ℕ) (items : List OrderItem) (shippingCharge : ℚ) :
    Order :=
  { orderId := none
    user := userId
    items := items
    subtotal := items.foldl (fun s i => s + i.price * (i.quantity : ℚ)) 0
    shippingCharge := shippingCharge
    discount := 0
    totalAmount := items.foldl (fun s i => s + i.price * (i.quantity : ℚ)) 0 + shippingCharge
    orderStatus := OrderStatus.pending
    deliveredAt := none
    isCancelled := false
    cancelledAt := none
    cancellationReason := none
    isReturned := false
    returnRequestedAt := none
    returnReason := none
    returnStatus := none
    coupon := none }

/-- The order write performed by the `applyCoupon` controller: snapshot
the coupon onto the order and set
`totalAmount = subtotal - discountAmount + shippingCharge`, where a
free-shipping coupon zeroes the shipping term through a local variable
(the stored `shippingCharge` field is untouched). -/
def applyOrderWrite (o : Order) (c : Coupon) (dr : DiscountInfo) (now : ℤ) : Order :=
  { o with
    coupon := some
      { couponId := c.id
        code := c.code
        discountType := c.discountType
        discountAmount := dr.discountAmount
        freeShipping := dr.freeShipping
        appliedAt := now }
    totalAmount := o.subtotal - dr.discountAmount +
      (if dr.freeShipping then 0 else o.shippingCharge) }

/-- The cart items the `applyCoupon` controller derives from the order's
line items before calling `calculateDiscount`. -/
def cartItemsOfOrder (o : Order) : List CartItem :=
  o.items.map (fun i => { product := i.product, quantity := i.quantity })

/-- The core of the `applyCoupon` controller (after the not-found and
ownership guards, which mutate nothing): validate the user, compute the
discount over `order.subtotal`, then (order write, ledger commit) — in
that sequence. -/
def CouponController.applyCoupon (o : Order) (c : Coupon) (userId orderId : ℕ) (now : ℤ) :
    Except Reason (Order × Coupon) :=
  match Coupon.canUserUse c userId now with
  | .fail r => .error r
  | .ok =>
    match Coupon.calculateDiscount c o.subtotal (cartItemsOfOrder o) with
    | .reject r => .error r
    | .ok dr =>
      .ok (applyOrderWrite o c dr now, Coupon.applyCoupon c userId orderId dr.discountAmount now)

/-- The core of the `removeCoupon` controller: refuse when no coupon is
applied, else clear the snapshot and set
`totalAmount = subtotal + shippingCharge`. -/
def CouponController.removeCoupon (o : Order) : Except String Order :=
  match o.coupon with
  | none => .error "No coupon applied to this order"
  | some _ => .ok { o with coupon := none, totalAmount := o.subtotal + o.shippingCharge }

/-- The persisted state touched by the `applyCoupon` controller. -/
structure PersistedState where
  order : Order
  coupon : Coupon
deriving DecidableEq, Repr

/-- The `applyCoupon` controller with an explicit crash point `k`: the
number of persistence writes that complete before the request dies.  The
controller performs `order.save()` first (write 1) and the usage-ledger
commit `coupon.applyCoupon(...)` second (write 2); a validation failure
performs no write. -/
def applyCouponCrash (s : PersistedState) (userId orderId : ℕ) (now : ℤ) (k : ℕ) :
    PersistedState :=
  match Coupon.canUserUse s.coupon userId now with
  | .fail _ => s
  | .ok =>
    match Coupon.calculateDiscount s.coupon s.order.subtotal (cartItemsOfOrder s.order) with
    | .reject _ => s
    | .ok dr =>
      { order := if 1 ≤ k then applyOrderWrite s.order s.coupon dr now else s.order
        coupon :=
          if 2 ≤ k then Coupon.applyCoupon s.coupon userId orderId dr.discountAmount now
          else s.coupon }

/-- Whether a coupon is recorded on the order (the snapshot is truthy). -/
def couponRecorded (o : Order) : Bool :=
  o.coupon.isSome

/-- Whether the coupon's usage ledger holds an entry for this user
mentioning this order. -/
def ledgerHasEntry (c : Coupon) (userId orderId : ℕ) : Bool :=
  c.userUsage.any (fun e => e.user == userId && e.usageHistory.any (fun h => h.orderId == orderId))

/-- The usage-cap invariants of spec §3: the global usage counter never
exceeds a (positive) global cap, and no user's used-count exceeds the
per-user cap. -/
def capInv (c : Coupon) : Prop :=
  (∀ m, c.maxUsageLimit = some m → 0 < m → c.usageCount ≤ m) ∧
  (∀ e ∈ c.userUsage, e.usedCount ≤ c.maxUsagePerUser)

/-- Coupon states reachable from `c0` through evaluate-then-commit
applications: each step is gated by `canUserUse` (as in the
apply-coupon controller) and commits through the usage ledger.  The
query methods (`getUserUsage`, `getStatus`) are pure and do not mutate. -/
inductive ReachableCoupon (c0 : Coupon) : Coupon → Prop where
  | refl : ReachableCoupon c0 c0
  | step (c : Coupon) (u oid : ℕ) (amt : ℚ) (now : ℤ) :
      ReachableCoupon c0 c → Coupon.canUserUse c u now = CheckResult.ok →
      ReachableCoupon c0 (Coupon.applyCoupon c u oid amt now)

/-- A baseline coupon fixture: flat ₹50 off, unrestricted, active on
the window `[0, 10^12]`, unused. -/
def couponFixed50 : Coupon :=
  { id := 1
    code := "FLAT50"
    discountType := DiscountType.fixed
    discountValue := 50
    maxDiscountAmount := none
    minOrderValue := 0
    maxUsageLimit := none
    maxUsagePerUser := 1
    validFrom := 0
    validUntil := 1000000000000
    isActive := true
    applicableCategories := []
    applicableProducts := []
    applicableUsers := []
    usageCount := 0
    userUsage := []
    freeShipping := false
    excludedProducts := [] }

/-- A 5%-off coupon with a ₹100 cap (percentage fixture). -/
def couponPct5 : Coupon :=
  { couponFixed50 with
    id := 2
    code := "PCT5"
    discountType := DiscountType.percentage
    discountValue := 5
    maxDiscountAmount := some 100 }

/-- A coupon restricted to category 7 only (empty product lists). -/
def couponCatOnly : Coupon :=
  { couponFixed50 with
    id := 3
    code := "CATONLY"
    discountValue := 10
    applicableCategories := [7] }

/-- A coupon whose per-user cap is 0 (the schema does not forbid it and
the admin update route writes the field through unchecked). -/
def couponZeroCap : Coupon :=
  { couponFixed50 with id := 4, code := "ZEROCAP", maxUsagePerUser := 0 }

/-- A capped coupon fixture with a positive global cap. -/
def couponCapped : Coupon :=
  { couponFixed50 with id := 5, code := "CAPPED", maxUsageLimit := some 5 }

/-- A VIP coupon restricted to the user allow-list `[1]`. -/
def couponVip : Coupon :=
  { couponFixed50 with id := 6, code := "VIP", applicableUsers := [1] }

/-- A pending order holding one ₹1000 line item, totals as created by
`createOrder` (no coupon). -/
def orderPlain : Order :=
  { orderId := none
    user := 7
    items := [{ product := 1, variantSku := none, quantity := 1, price := 1000, totalPrice := 1000 }]
    subtotal := 1000
    shippingCharge := 0
    discount := 0
    totalAmount := 1000
    orderStatus := OrderStatus.pending
    deliveredAt := none
    isCancelled := false
    cancelledAt := none
    cancellationReason := none
    isReturned := false
    returnRequestedAt := none
    returnReason := none
    returnStatus := none
    coupon := none }

/-- An order whose coupon snapshot carries a discount larger than
subtotal plus shipping. -/
def orderOverDiscounted : Order :=
  { orderPlain with
    items := [{ product := 1, variantSku := none, quantity := 1, price := 10, totalPrice := 10 }]
    subtotal := 10
    totalAmount := 10
    coupon := some
      { couponId := 9
        code := "BIG"
        discountType := DiscountType.fixed
        discountAmount := 50
        freeShipping := false
        appliedAt := 0 } }

/-- A processing order with two line items of quantities 3 and 1
(scenario F of spec §8). -/
def orderProcessing : Order :=
  { orderPlain with
    items :=
      [{ product := 1, variantSku := none, quantity := 3, price := 100, totalPrice := 300 },
       { product := 2, variantSku := none, quantity := 1, price := 50, totalPrice := 50 }]
    subtotal := 350
    totalAmount := 350
    orderStatus := OrderStatus.processing }

/-- An order delivered at time 0 (scenario E of spec §8). -/
def orderDelivered : Order :=
  { orderPlain with
    orderStatus := OrderStatus.delivered
    deliveredAt := some 0 }

/-- The persisted state before the partial-failure run of the
apply-coupon controller. -/
def stateBeforeApply : PersistedState :=
  { order := orderPlain, coupon := couponFixed50 }

/-- A product finder that finds every product (the normal catalog
environment of `cancelOrder`). -/
def findAll : ℕ → Bool := fun _ => true

/-- Response shape of the `validateCoupon` controller. -/
inductive ValidateResult where
  | badRequest (msg : String)
  | notFound
  | rejected (reason : Option Reason)
  | success (couponId : ℕ) (discountAmount : ℚ) (freeShipping : Bool) (finalTotal : ℚ)
deriving DecidableEq, Repr

/-- JS truthiness of the object returned by `canUserUse`: an object is
never falsy, whatever its `valid` field holds. -/
def jsObjectIsFalsy (_ : CheckResult) : Bool :=
  false

/-- The failure reason carried by a `CheckResult` (absent on success). -/
def CheckResult.reasonField : CheckResult → Option Reason
  | .ok => none
  | .fail r => some r

/-- The core of the `validateCoupon` controller: the empty-code and
non-positive-cart guards, the `findValidCoupon` lookup (its result is
passed in), then the user check — written exactly as the source tests
it, `if (!userValidation)`, where `userValidation` is the object
returned by `canUserUse` — and finally the discount computation. -/
def CouponController.validateCoupon (code : String) (cartTotal : ℚ)
    (cartItems : List CartItem) (lookup : Option Coupon) (userId : ℕ) (now : ℤ) :
    ValidateResult :=
  if code = "" then .badRequest "Coupon code is required"
  else if cartTotal ≤ 0 then .badRequest "Cart total must be greater than 0"
  else
    match lookup with
    | none => .notFound
    | some coupon =>
      let userValidation := Coupon.canUserUse coupon userId now
      if jsObjectIsFalsy userValidation then .rejected userValidation.reasonField
      else
        match Coupon.calculateDiscount coupon cartTotal cartItems with
        | .reject r => .rejected (some r)
        | .ok dr => .success coupon.id dr.discountAmount dr.freeShipping dr.finalTotal

/-- A single-line-item order payload for the round-trip scenario. -/
def orderItemsW9 : List OrderItem :=
  [{ product := 1, variantSku := none, quantity := 2, price := 100, totalPrice := 200 }]

/-- The order created from that payload with ₹40 shipping. -/
def orderW9 : Order := OrderController.createOrder 7 orderItemsW9 40

/-- The discount `calculateDiscount` computes for `couponFixed50` on
that order's ₹200 subtotal. -/
def discountW9 : DiscountInfo :=
  { discountAmount := 50, discountType := DiscountType.fixed, freeShipping := false,
    originalTotal := 200, finalTotal := 150 }

/-- The order after the apply-coupon controller's order write. -/
def orderW9Applied : Order := applyOrderWrite orderW9 couponFixed50 discountW9 5

/-- The coupon after the matching usage-ledger commit. -/
def couponW9Applied : Coupon := Coupon.applyCoupon couponFixed50 7 42 50 5

lemma isValid_ok_iff (c : Coupon) (now : ℤ) :
    Coupon.isValid c now = CheckResult.ok ↔
      (c.isActive = true ∧ now ≤ c.validUntil ∧ c.validFrom ≤ now ∧
        ∀ m, c.maxUsageLimit = some m → m ≠ 0 → c.usageCount < m) := by
  unfold Coupon.isValid
  rcases hM : c.maxUsageLimit with _ | m <;>
    · split_ifs with h1 h2 h3 h4 <;> simp_all <;> omega

lemma canUserUse_ok_iff (c : Coupon) (u : ℕ) (now : ℤ) :
    Coupon.canUserUse c u now = CheckResult.ok ↔
      (Coupon.isValid c now = CheckResult.ok ∧
        (c.applicableUsers = [] ∨ c.applicableUsers.contains u = true) ∧
        ∀ e, c.userUsage.find? (fun e => e.user == u) = some e →
          e.usedCount < c.maxUsagePerUser) := by
  unfold Coupon.canUserUse
  rcases hv : Coupon.isValid c now with _ | r
  · rcases hf : c.userUsage.find? (fun e => e.user == u) with _ | e
    · simp only [hf]
      split_ifs with h1 <;> simp_all <;> first | tauto | omega
    · simp only [hf]
      split_ifs with h1 h2 <;> simp_all <;> first | tauto | omega
  · simp

lemma mem_updateFirst {f : UserUsage → UserUsage} {u : ℕ} :
    ∀ {l : List UserUsage} {x : UserUsage}, x ∈ updateFirst l u f →
      x ∈ l ∨ ∃ e, l.find? (fun e => e.user == u) = some e ∧ x = f e := by
  intro l
  induction l with
  | nil => intro x hx; simp [updateFirst] at hx
  | cons a rest ih =>
    intro x hx
    by_cases ha : (a.user == u) = true
    · rw [updateFirst, if_pos ha] at hx
      rcases List.mem_cons.mp hx with rfl | hx
      · exact Or.inr ⟨a, List.find?_cons_of_pos _ ha, rfl⟩
      · exact Or.inl (List.mem_cons_of_mem _ hx)
    · rw [updateFirst, if_neg ha] at hx
      rcases List.mem_cons.mp hx with rfl | hx
      · exact Or.inl (List.mem_cons_self _ _)
      · rcases ih hx with h | ⟨e, he, hxe⟩
        · exact Or.inl (List.mem_cons_of_mem _ h)
        · refine Or.inr ⟨e, ?_, hxe⟩
          rw [List.find?_cons_of_neg _ (by simp_all), he]

lemma filterMap_stockCalls_eq_map (pf : ℕ → Bool) :
    ∀ l : List OrderItem, (∀ i ∈ l, pf i.product = true) →
      (l.filterMap fun i =>
        if pf i.product then
          some ({ product := i.product, quantity := i.quantity,
                  variantSku := i.variantSku } : StockCall)
        else none) =
      l.map fun i =>
        ({ product := i.product, quantity := i.quantity,
           variantSku := i.variantSku } : StockCall) := by
  intro l
  induction l with
  | nil => intro _; rfl
  | cons a rest ih =>
    intro h
    have ha := h a (List.mem_cons_self a rest)
    simp only [List.filterMap_cons, ha, if_pos, List.map_cons]
    rw [ih (fun i hi => h i (List.mem_cons_of_mem _ hi))]

lemma calculateDiscount_ok_elim (c : Coupon) (t : ℚ) (items : List CartItem)
    (dr : DiscountInfo) (h : Coupon.calculateDiscount c t items = DiscountResult.ok dr) :
    dr.discountAmount = Coupon.discountAmountCalc c t ∧
    dr.freeShipping = c.freeShipping ∧
    dr.discountType = c.discountType ∧
    dr.originalTotal = t ∧
    dr.finalTotal = t - Coupon.discountAmountCalc c t ∧
    c.minOrderValue ≤ t := by
  unfold Coupon.calculateDiscount at h
  split at h
  · cases h
  · rename_i h1
    dsimp only at h
    split at h
    · cases h
    · split at h
      · cases h
      · injection h with h
        subst h
        exact ⟨rfl, rfl, rfl, rfl, rfl, le_of_not_lt h1⟩

lemma applyCoupon_fields (c : Coupon) (u oid : ℕ) (amt : ℚ) (now : ℤ) :
    (Coupon.applyCoupon c u oid amt now).maxUsagePerUser = c.maxUsagePerUser ∧
    (Coupon.applyCoupon c u oid amt now).maxUsageLimit = c.maxUsageLimit ∧
    (Coupon.applyCoupon c u oid amt now).usageCount = c.usageCount + 1 := by
  unfold Coupon.applyCoupon
  cases c.userUsage.find? (fun e => e.user == u) <;> exact ⟨rfl, rfl, rfl⟩

lemma capInv_step (c : Coupon) (u oid : ℕ) (amt : ℚ) (now : ℤ)
    (hcap : 1 ≤ c.maxUsagePerUser) (hInv : capInv c)
    (hok : Coupon.canUserUse c u now = CheckResult.ok) :
    capInv (Coupon.applyCoupon c u oid amt now) := by
  obtain ⟨hg, hu⟩ := hInv
  obtain ⟨hval, -, hcnt⟩ := (canUserUse_ok_iff c u now).mp hok
  obtain ⟨-, -, -, hglob⟩ := (isValid_ok_iff c now).mp hval
  constructor
  · intro m hm hpos
    obtain ⟨-, hL, hC⟩ := applyCoupon_fields c u oid amt now
    rw [hL] at hm
    rw [hC]
    have := hglob m hm (Nat.pos_iff_ne_zero.mp hpos)
    omega
  · intro e he
    obtain ⟨hP, -, -⟩ := applyCoupon_fields c u oid amt now
    rw [hP]
    unfold Coupon.applyCoupon at he
    rcases hf : c.userUsage.find? (fun x => x.user == u) with _ | e₀
    · rw [hf] at he
      dsimp only at he
      rcases List.mem_append.mp he with h | h
      · exact hu e h
      · rw [List.mem_singleton] at h
        subst h
        simpa using hcap
    · rw [hf] at he
      dsimp only at he
      rcases mem_updateFirst he with h | ⟨e₁, he₁, rfl⟩
      · exact hu e h
      · have h₁ : e₁ = e₀ := by
          rw [hf] at he₁
          injection he₁ with hx
          exact hx.symm
        subst h₁
        have := hcnt e₁ hf
        simpa using this

lemma reachable_maxUsagePerUser (c0 c : Coupon) (h : ReachableCoupon c0 c) :
    c.maxUsagePerUser = c0.maxUsagePerUser := by
  induction h with
  | refl => rfl
  | step c u oid amt now _ _ ih =>
    rw [(applyCoupon_fields c u oid amt now).1, ih]

/-- C2 (amended): for every coupon that passes the eligibility gates of
`calculateDiscount`, the computed discount equals
`min(cartTotal * discountValue / 100, maxDiscountAmount)` for
`percentage` coupons (with a cap present) and
`min(discountValue, cartTotal)` for `fixed` coupons, and — given a
nonnegative cart total and a percentage value of at most 100 (the
pre-save validation enforces the latter) — the result never exceeds
`cartTotal`.  No rounding to the smallest currency unit is performed
(see the counterexample). -/
theorem calculateDiscount_formula (c : Coupon) (t : ℚ) (items : List CartItem)
    (dr : DiscountInfo) (h : Coupon.calculateDiscount c t items = DiscountResult.ok dr)
    (ht : 0 ≤ t) (hp : c.discountType = DiscountType.percentage → c.discountValue ≤ 100) :
    (∀ m, c.discountType = DiscountType.percentage → c.maxDiscountAmount = some m →
      dr.discountAmount = min (t * c.discountValue / 100) m) ∧
    (c.discountType = DiscountType.fixed → dr.discountAmount = min c.discountValue t) ∧
    dr.discountAmount ≤ t := by
  obtain ⟨hA, -, -, -, -, -⟩ := calculateDiscount_ok_elim c t items dr h
  have h100 : (0 : ℚ) < 100 := by norm_num
  rcases hd : c.discountType with _ | _
  · have hd0 : t * c.discountValue / 100 ≤ t := by
      rw [div_le_iff h100]
      exact mul_le_mul_of_nonneg_left (hp hd) ht
    rcases hM : c.maxDiscountAmount with _ | m
    · refine ⟨fun m _ hm => Option.noConfusion hm, fun hf => DiscountType.noConfusion hf, ?_⟩
      rw [hA]
      unfold Coupon.discountAmountCalc
      rw [hd, hM]
      exact hd0
    · have hmin : Coupon.discountAmountCalc c t = min (t * c.discountValue / 100) m := by
        unfold Coupon.discountAmountCalc
        rw [hd, hM]
        dsimp only
        rcases lt_or_le m (t * c.discountValue / 100) with hlt | hle
        · rw [if_pos hlt, min_eq_right (le_of_lt hlt)]
        · rw [if_neg (not_lt.mpr hle), min_eq_left hle]
      refine ⟨fun m' _ hm' => ?_, fun hf => DiscountType.noConfusion hf, ?_⟩
      · injection hm' with hm'
        rw [hA, hmin, hm']
      · rw [hA, hmin]
        exact le_trans (min_le_left _ _) hd0
  · have hfix : Coupon.discountAmountCalc c t = min c.discountValue t := by
      unfold Coupon.discountAmountCalc
      rw [hd]
      dsimp only
      rcases lt_or_le t c.discountValue with hlt | hle
      · rw [if_pos hlt, min_eq_right (le_of_lt hlt)]
      · rw [if_neg (not_lt.mpr hle), min_eq_left hle]
    refine ⟨fun m hper _ => DiscountType.noConfusion hper, fun _ => by rw [hA, hfix], ?_⟩
    rw [hA, hfix]
    exact min_le_right _ _

/-- C2 counterexample: the 5% coupon on a ₹99 cart yields the exact
rational 99/20 = 4.95, whose denominator is not 1 — the value is not a
whole amount of the smallest currency unit, and no round-half-up (which
would give 5) is applied, contradicting the claim's rounding clause. -/
theorem calculateDiscount_no_rounding_cex :
    (Coupon.calculateDiscount couponPct5 99 []).isOk = true ∧
    (Coupon.calculateDiscount couponPct5 99 []).amount = 99 / 20 ∧
    ((Coupon.calculateDiscount couponPct5 99 []).amount).den ≠ 1 ∧
    (Coupon.calculateDiscount couponPct5 99 []).amount ≠ 5 := by
  have hc : Coupon.calculateDiscount couponPct5 99 [] = DiscountResult.ok
      { discountAmount := 99 / 20, discountType := DiscountType.percentage,
        freeShipping := false, originalTotal := 99, finalTotal := 99 - 99 / 20 } := by
    norm_num [Coupon.calculateDiscount, Coupon.discountAmountCalc, couponPct5, couponFixed50]
  rw [hc]
  refine ⟨rfl, rfl, by norm_num [DiscountResult.amount], by norm_num [DiscountResult.amount]⟩

/-- C2 witness: the formula theorem applied to the 5% coupon (cap ₹100)
on a ₹1000 cart: discount 50 = min(1000·5/100, 100), and 50 ≤ 1000. -/
theorem calculateDiscount_formula_witness :
    (50 : ℚ) = min (1000 * couponPct5.discountValue / 100) 100 ∧ (50 : ℚ) ≤ 1000 := by
  have h := calculateDiscount_formula couponPct5 1000 []
    { discountAmount := 50, discountType := DiscountType.percentage, freeShipping := false,
      originalTotal := 1000, finalTotal := 950 }
    (by norm_num [Coupon.calculateDiscount, Coupon.discountAmountCalc, couponPct5, couponFixed50])
    (by norm_num) (fun _ => by norm_num [couponPct5, couponFixed50])
  exact ⟨h.1 100 rfl rfl, h.2.2⟩

/-- C3 (amended): after `calculateTotal`, `totalAmount` equals
`subtotal - discount + shipping`, where the shipping term is forced to 0
when the applied coupon grants free shipping, `discount` equals the
coupon snapshot's amount (0 when no coupon is applied), `subtotal` is
the sum of `price * quantity` over the line items, and the stored
`shippingCharge` field is untouched.  The result is NOT floored at 0
and can be negative (see the counterexample). -/
theorem calculateTotal_formula (o : Order) :
    ((Order.calculateTotal o).totalAmount =
      (Order.calculateTotal o).subtotal - (Order.calculateTotal o).discount +
        (match o.coupon with
          | some cp => if cp.freeShipping = true then 0 else o.shippingCharge
          | none => o.shippingCharge)) ∧
    ((Order.calculateTotal o).subtotal =
      o.items.foldl (fun s i => s + i.price * (i.quantity : ℚ)) 0) ∧
    (o.coupon = none → (Order.calculateTotal o).discount = 0) ∧
    (∀ cp, o.coupon = some cp → (Order.calculateTotal o).discount = cp.discountAmount) ∧
    ((Order.calculateTotal o).shippingCharge = o.shippingCharge) := by
  rcases hc : o.coupon with _ | cp
  · simp [Order.calculateTotal, hc]
  · by_cases hz : cp.discountAmount = 0 <;> by_cases hfs : cp.freeShipping = true <;>
      simp [Order.calculateTotal, hc, hz, hfs]

/-- C3 counterexample: an order whose coupon snapshot discounts ₹50 off
a ₹10 subtotal; `calculateTotal` leaves `totalAmount = -40`, so the
total is not floored at 0 as the claim states. -/
theorem calculateTotal_negative_cex :
    (Order.calculateTotal orderOverDiscounted).totalAmount < 0 := by
  norm_num [Order.calculateTotal, orderOverDiscounted, orderPlain]

/-- C3 witness: the formula theorem applied to the over-discounted
fixture: its recomputed discount equals the snapshot's ₹50. -/
theorem calculateTotal_formula_witness :
    (Order.calculateTotal orderOverDiscounted).discount =
      ({ couponId := 9, code := "BIG", discountType := DiscountType.fixed,
         discountAmount := 50, freeShipping := false, appliedAt := 0 } :
        CouponSnapshot).discountAmount :=
  (calculateTotal_formula orderOverDiscounted).2.2.2.1 _ rfl

/-- C4 (amended): only the `applicableProducts` allow-list is enforced
by `calculateDiscount`: when it is non-empty and no cart line item's
product is in it (and the minimum-order gate passes), evaluation fails
with the `NoApplicableItems` rejection.  The `applicableCategories`
allow-list is never consulted — the result is invariant under replacing
it — so a coupon restricted only to certain categories is NOT rejected
for a cart containing no product of those categories (see the
counterexample). -/
theorem applicableProducts_gate (c : Coupon) (t : ℚ) (items : List CartItem)
    (hmin : c.minOrderValue ≤ t) (hne : c.applicableProducts ≠ [])
    (hnomatch : ∀ i ∈ items, ∀ p ∈ c.applicableProducts, i.product ≠ p) :
    Coupon.calculateDiscount c t items = DiscountResult.reject Reason.noApplicableItems ∧
    ∀ cats, Coupon.calculateDiscount { c with applicableCategories := cats } t items =
      Coupon.calculateDiscount c t items := by
  constructor
  · have hlen : 0 < c.applicableProducts.length := List.length_pos.mpr hne
    have hany : ((items.map fun i => i.product).any fun i =>
        c.applicableProducts.any fun p => p == i) = false := by
      rw [List.any_eq_false]
      intro x hx
      obtain ⟨i, hi, rfl⟩ := List.mem_map.mp hx
      simp only [List.any_eq_true, beq_iff_eq, not_exists, not_and]
      intro p hp he
      exact hnomatch i hi p hp he.symm
    unfold Coupon.calculateDiscount
    rw [if_neg (not_lt.mpr hmin)]
    dsimp only
    rw [if_pos ⟨Or.inl hlen, hlen, hany⟩]
  · intro cats
    rfl

/-- C4 counterexample: a coupon restricted to category 7 only (empty
product lists) evaluates as valid with the full ₹10 discount on a cart
whose single item belongs to no allowed category — the claimed
`NoApplicableItems` rejection never happens for category restrictions. -/
theorem categories_not_enforced_cex :
    couponCatOnly.applicableCategories ≠ [] ∧
    (Coupon.calculateDiscount couponCatOnly 100 [{ product := 1, quantity := 1 }]).isOk
      = true ∧
    (Coupon.calculateDiscount couponCatOnly 100 [{ product := 1, quantity := 1 }]).amount
      = 10 := by
  refine ⟨by norm_num [couponCatOnly, couponFixed50], ?_, ?_⟩ <;>
    norm_num [Coupon.calculateDiscount, Coupon.discountAmountCalc, couponCatOnly,
      couponFixed50, DiscountResult.isOk, DiscountResult.amount]

/-- C4 witness: a coupon whose product allow-list is `[5]` is rejected
with `NoApplicableItems` on a cart containing only product 1. -/
theorem applicableProducts_gate_witness :
    Coupon.calculateDiscount { couponFixed50 with applicableProducts := [5] } 100
      [{ product := 1, quantity := 1 }] = DiscountResult.reject Reason.noApplicableItems :=
  (applicableProducts_gate { couponFixed50 with applicableProducts := [5] } 100
    [{ product := 1, quantity := 1 }]
    (by norm_num [couponFixed50]) (by norm_num [couponFixed50])
    (by norm_num [couponFixed50])).1

/-- C5 (amended): provided the coupon's per-user cap is at least 1, the
usage-cap invariants hold in every state reachable through
evaluate-then-commit coupon applications (the queries `getUserUsage` and
`getStatus` are pure and mutate nothing): the global usage counter never
exceeds a positive global cap, and no user's used-count exceeds the
per-user cap.  The provisos are forced: the guards treat a zero global
cap as unset, and a zero per-user cap is exceeded by the very first use
(see the counterexample). -/
theorem usageCaps_invariant (c0 c : Coupon) (hcap : 1 ≤ c0.maxUsagePerUser)
    (hInv : capInv c0) (hr : ReachableCoupon c0 c) : capInv c := by
  induction hr with
  | refl => exact hInv
  | step c u oid amt now hr hok ih =>
    refine capInv_step c u oid amt now ?_ ih hok
    rw [reachable_maxUsagePerUser c0 c hr]
    exact hcap

/-- C5 counterexample: a coupon whose per-user cap is 0 (expressible in
the schema and via the admin update route) passes `canUserUse` for a
first-time user — the cap guard fires only when a usage entry already
exists — so one evaluate-then-commit application reaches a state whose
ledger entry has used-count 1 > 0, violating the claimed invariant. -/
theorem perUserCap_zero_cex :
    Coupon.canUserUse couponZeroCap 7 5 = CheckResult.ok ∧
    ReachableCoupon couponZeroCap (Coupon.applyCoupon couponZeroCap 7 42 50 5) ∧
    ¬ capInv (Coupon.applyCoupon couponZeroCap 7 42 50 5) := by
  have hok : Coupon.canUserUse couponZeroCap 7 5 = CheckResult.ok := by decide
  refine ⟨hok, ReachableCoupon.step couponZeroCap 7 42 50 5 ReachableCoupon.refl hok, ?_⟩
  rintro ⟨-, hu⟩
  have hmem : ({ user := 7, usedCount := 1, lastUsedAt := some 5, usageHistory := [{ orderId := 42, discountAmount := 50, usedAt := 5 }] } : UserUsage) ∈ (Coupon.applyCoupon couponZeroCap 7 42 50 5).userUsage := by
    rw [show (Coupon.applyCoupon couponZeroCap 7 42 50 5).userUsage = [{ user := 7, usedCount := 1, lastUsedAt := some 5, usageHistory := [{ orderId := 42, discountAmount := 50, usedAt := 5 }] }] from rfl]
    exact List.mem_singleton.mpr rfl
  have hle := hu _ hmem
  norm_num [Coupon.applyCoupon, couponZeroCap, couponFixed50] at hle

/-- C5 witness: the invariant theorem applied to the capped fixture
coupon after one committed application. -/
theorem usageCaps_invariant_witness :
    capInv (Coupon.applyCoupon couponCapped 7 42 50 5) := by
  refine usageCaps_invariant couponCapped _ ?_ ⟨?_, ?_⟩
    (ReachableCoupon.step couponCapped 7 42 50 5 ReachableCoupon.refl (by decide))
  · norm_num [couponCapped, couponFixed50]
  · intro m hm hpos
    have : m = 5 := by
      have h5 : couponCapped.maxUsageLimit = some 5 := rfl
      rw [h5] at hm
      injection hm with hm
      exact hm.symm
    rw [this]
    norm_num [couponCapped, couponFixed50]
  · intro e he
    have h0 : couponCapped.userUsage = [] := rfl
    rw [h0] at he
    cases he

/-- C6: cancellation of an order fails with the invalid-transition error
exactly when the current status is `delivered` (the method throws before
any mutation, leaving the order unchanged); otherwise the status becomes
`cancelled`, the cancellation flag, timestamp and reason are set, and —
when every line item's product is found in the catalog — the inventory
collaborator receives exactly one `increaseStock` call per line item,
carrying that item's quantity and variant SKU. -/
theorem cancelOrder_spec (o : Order) (reason : String) (findProduct : ℕ → Bool) (now : ℤ)
    (hpf : ∀ i ∈ o.items, findProduct i.product = true) :
    (o.orderStatus = OrderStatus.delivered →
      Order.cancelOrder o reason findProduct now =
        Except.error "Cannot cancel delivered order") ∧
    (o.orderStatus ≠ OrderStatus.delivered →
      Order.cancelOrder o reason findProduct now = Except.ok
        ({ o with
            orderStatus := OrderStatus.cancelled
            isCancelled := true
            cancelledAt := some now
            cancellationReason := some reason },
          o.items.map fun i =>
            { product := i.product, quantity := i.quantity, variantSku := i.variantSku })) := by
  constructor
  · intro hd
    unfold Order.cancelOrder
    rw [if_pos hd]
  · intro hd
    unfold Order.cancelOrder
    rw [if_neg hd, filterMap_stockCalls_eq_map findProduct o.items hpf]

/-- C6 witness (scenario F of spec §8): cancelling a `processing` order
with line items of quantities 3 and 1 yields exactly two `increaseStock`
calls with those quantities, and the cancelled order state. -/
theorem cancelOrder_spec_witness :
    Order.cancelOrder orderProcessing "changed mind" findAll 999 = Except.ok
      ({ orderProcessing with
          orderStatus := OrderStatus.cancelled
          isCancelled := true
          cancelledAt := some 999
          cancellationReason := some "changed mind" },
        [{ product := 1, quantity := 3, variantSku := none },
         { product := 2, quantity := 1, variantSku := none }]) := by
  have h := (cancelOrder_spec orderProcessing "changed mind" findAll 999
    (fun i _ => rfl)).2 (by decide)
  rw [h]
  rfl

/-- C7 (amended): a return request fails with the invalid-transition
error unless the order is `delivered`; for a delivered order the
`ReturnWindowExpired` failure happens exactly when at least 8 whole days
(8 · 86400000 ms) have elapsed since delivery — the code floors the
elapsed days and rejects only when that floor exceeds 7, so a request
made 8 days after delivery is rejected, but one made more than 7 yet
fewer than 8 days after delivery is still accepted (see the
counterexample); otherwise the returned flag, request timestamp, reason
and return-status `requested` are set. -/
theorem requestReturn_spec (o : Order) (reason : String) (now d : ℤ)
    (hs : o.orderStatus = OrderStatus.delivered) (hd : o.deliveredAt = some d) :
    (8 * 86400000 ≤ now - d →
      Order.requestReturn o reason now = Except.error "Return period has expired") ∧
    (now - d < 8 * 86400000 →
      Order.requestReturn o reason now = Except.ok
        { o with
          isReturned := true
          returnRequestedAt := some now
          returnReason := some reason
          returnStatus := some ReturnStatus.requested }) ∧
    (∀ o₂ : Order, o₂.orderStatus ≠ OrderStatus.delivered →
      Order.requestReturn o₂ reason now = Except.error "Can only return delivered orders") := by
  refine ⟨?_, ?_, ?_⟩
  · intro h8
    unfold Order.requestReturn
    rw [if_neg (by simp [hs]), hd]
    dsimp only
    rw [if_pos (by omega)]
  · intro h8
    unfold Order.requestReturn
    rw [if_neg (by simp [hs]), hd]
    dsimp only
    rw [if_neg (by omega)]
  · intro o₂ h
    unfold Order.requestReturn
    rw [if_pos h]

/-- C7 counterexample: the fixture order was delivered at time 0 and the
return is requested at 7.5 days (648000000 ms > 7 · 86400000 ms), so the
elapsed time exceeds the 7-day period; the claim demands a
`ReturnWindowExpired` failure, yet the code accepts the request. -/
theorem returnWindow_fractional_day_cex :
    7 * 86400000 < (648000000 : ℤ) ∧
    Order.requestReturn orderDelivered "damaged" 648000000 = Except.ok
      { orderDelivered with
        isReturned := true
        returnRequestedAt := some 648000000
        returnReason := some "damaged"
        returnStatus := some ReturnStatus.requested } := by
  constructor
  · norm_num
  · exact ((requestReturn_spec orderDelivered "damaged" 648000000 0 rfl rfl).2.1 (by norm_num))

/-- C7 witness (scenario E of spec §8): a return requested exactly 8
days (8 · 86400000 ms) after delivery is rejected with the
return-window failure. -/
theorem requestReturn_spec_witness :
    Order.requestReturn orderDelivered "damaged" (8 * 86400000) =
      Except.error "Return period has expired" :=
  (requestReturn_spec orderDelivered "damaged" (8 * 86400000) 0 rfl rfl).1 (by norm_num)

/-- C1 (amended): in the apply-coupon controller the financially binding
order write (`order.save()` with coupon snapshot and recomputed total)
happens strictly BEFORE the usage-ledger commit
(`coupon.applyCoupon(...)`), not after it.  Consequently the only
one-sided partial-failure state is a coupon recorded on the order
without a matching ledger entry (see the counterexample); the converse
cannot occur: at every crash point, a fresh ledger entry for this
user/order implies the coupon snapshot is on the order. -/
theorem applyCoupon_ledger_entry_implies_snapshot (s : PersistedState) (u oid : ℕ)
    (now : ℤ) (k : ℕ) (h0 : ledgerHasEntry s.coupon u oid = false)
    (hl : ledgerHasEntry (applyCouponCrash s u oid now k).coupon u oid = true) :
    couponRecorded (applyCouponCrash s u oid now k).order = true := by
  unfold applyCouponCrash at hl ⊢
  rcases hu : Coupon.canUserUse s.coupon u now with _ | r
  · rcases hd : Coupon.calculateDiscount s.coupon s.order.subtotal (cartItemsOfOrder s.order)
      with r' | dr
    · rw [hu, hd] at hl
      dsimp only at hl
      rw [h0] at hl
      exact Bool.noConfusion hl
    · rw [hu, hd] at hl
      dsimp only at hl ⊢
      by_cases hk : 2 ≤ k
      · rw [if_pos (show 1 ≤ k by omega)]
        rfl
      · rw [if_neg hk, h0] at hl
        exact Bool.noConfusion hl
  · rw [hu] at hl
    dsimp only at hl
    rw [h0] at hl
    exact Bool.noConfusion hl

/-- C1 counterexample: starting from an unused coupon and a plain order,
run the apply-coupon controller and crash after the first persistence
write (the order save) but before the second (the ledger commit): the
coupon is recorded on the order while the ledger has no matching entry —
the execution the claim says cannot exist. -/
theorem applyCoupon_partial_failure_cex :
    couponRecorded (applyCouponCrash stateBeforeApply 7 42 5 1).order = true ∧
    ledgerHasEntry (applyCouponCrash stateBeforeApply 7 42 5 1).coupon 7 42 = false := by
  have hok : Coupon.canUserUse couponFixed50 7 5 = CheckResult.ok := by decide
  have hdisc : Coupon.calculateDiscount couponFixed50 orderPlain.subtotal
      (cartItemsOfOrder orderPlain) = DiscountResult.ok
      { discountAmount := 50, discountType := DiscountType.fixed, freeShipping := false,
        originalTotal := 1000, finalTotal := 950 } := by
    norm_num [Coupon.calculateDiscount, Coupon.discountAmountCalc, couponFixed50,
      cartItemsOfOrder, orderPlain]
  have happ : applyCouponCrash stateBeforeApply 7 42 5 1 =
      { order := applyOrderWrite orderPlain couponFixed50 { discountAmount := 50, discountType := DiscountType.fixed, freeShipping := false, originalTotal := 1000, finalTotal := 950 } 5,
        coupon := couponFixed50 } := by
    unfold applyCouponCrash
    simp only [stateBeforeApply]
    rw [hok, hdisc]
    norm_num
  rw [happ]
  exact ⟨rfl, rfl⟩

/-- C1 witness: at the crash point after both writes (the completed
run), the ledger entry for user 7 / order 42 is present and the coupon
snapshot is on the order, as the amended theorem requires. -/
theorem applyCoupon_ledger_entry_implies_snapshot_witness :
    couponRecorded (applyCouponCrash stateBeforeApply 7 42 5 2).order = true := by
  have hok : Coupon.canUserUse couponFixed50 7 5 = CheckResult.ok := by decide
  have hdisc : Coupon.calculateDiscount couponFixed50 orderPlain.subtotal
      (cartItemsOfOrder orderPlain) = DiscountResult.ok
      { discountAmount := 50, discountType := DiscountType.fixed, freeShipping := false,
        originalTotal := 1000, finalTotal := 950 } := by
    norm_num [Coupon.calculateDiscount, Coupon.discountAmountCalc, couponFixed50,
      cartItemsOfOrder, orderPlain]
  have happ : applyCouponCrash stateBeforeApply 7 42 5 2 =
      { order := applyOrderWrite orderPlain couponFixed50 { discountAmount := 50, discountType := DiscountType.fixed, freeShipping := false, originalTotal := 1000, finalTotal := 950 } 5,
        coupon := Coupon.applyCoupon couponFixed50 7 42 50 5 } := by
    unfold applyCouponCrash
    simp only [stateBeforeApply]
    rw [hok, hdisc]
    norm_num
  refine applyCoupon_ledger_entry_implies_snapshot stateBeforeApply 7 42 5 2 (by decide) ?_
  rw [happ]
  rfl

/-- C8: in the `validateCoupon` controller the result of `canUserUse` is
tested only with `if (!userValidation)`, and an object is never falsy,
so the user-ineligibility rejection is unreachable: whenever the user is
ineligible (absent from a non-empty allow-list, or at the per-user cap)
but the remaining gates pass, the endpoint still answers success with a
computed discount. -/
theorem validateCoupon_ineligible_user_success (code : String) (t : ℚ)
    (items : List CartItem) (c : Coupon) (u : ℕ) (now : ℤ) (r : Reason) (dr : DiscountInfo)
    (hc : code ≠ "") (ht : ¬ t ≤ 0)
    (hu : Coupon.canUserUse c u now = CheckResult.fail r)
    (hr : r = Reason.userNotEligible ∨ r = Reason.userLimitReached)
    (hd : Coupon.calculateDiscount c t items = DiscountResult.ok dr) :
    CouponController.validateCoupon code t items (some c) u now =
      ValidateResult.success c.id dr.discountAmount dr.freeShipping dr.finalTotal := by
  unfold CouponController.validateCoupon
  rw [if_neg hc, if_neg ht]
  dsimp only
  rw [if_neg (by simp [jsObjectIsFalsy]), hd]

/-- C8 witness: user 7 is not in the VIP coupon's allow-list `[1]`
(`canUserUse` fails with the user-not-eligible reason), yet the
validate endpoint reports success with the full ₹50 discount. -/
theorem validateCoupon_ineligible_user_success_witness :
    CouponController.validateCoupon "VIP" 500 [] (some couponVip) 7 5 =
      ValidateResult.success couponVip.id 50 false 450 :=
  validateCoupon_ineligible_user_success "VIP" 500 [] couponVip 7 5
    Reason.userNotEligible
    { discountAmount := 50, discountType := DiscountType.fixed, freeShipping := false,
      originalTotal := 500, finalTotal := 450 }
    (by decide) (by norm_num) (by decide) (Or.inl rfl)
    (by norm_num [Coupon.calculateDiscount, Coupon.discountAmountCalc, couponVip,
      couponFixed50])

/-- C9: applying a coupon to a freshly created order and then removing
it restores `totalAmount` to its pre-application value — the created
order's subtotal plus shipping charge with no discount — while the
`subtotal` and the stored `shippingCharge` field are unchanged
throughout (the apply step zeroes shipping only through a local
variable). -/
theorem coupon_roundTrip (userId : ℕ) (items : List OrderItem) (shippingCharge : ℚ)
    (c : Coupon) (oid : ℕ) (now : ℤ) (o₁ : Order) (c₁ : Coupon)
    (h : CouponController.applyCoupon (OrderController.createOrder userId items shippingCharge)
      c userId oid now = Except.ok (o₁, c₁)) :
    ∃ o₂, CouponController.removeCoupon o₁ = Except.ok o₂ ∧
      o₂.totalAmount = (OrderController.createOrder userId items shippingCharge).totalAmount ∧
      o₂.subtotal = (OrderController.createOrder userId items shippingCharge).subtotal ∧
      o₂.shippingCharge = shippingCharge ∧
      o₁.subtotal = (OrderController.createOrder userId items shippingCharge).subtotal ∧
      o₁.shippingCharge = shippingCharge := by
  unfold CouponController.applyCoupon at h
  rcases hu : Coupon.canUserUse c userId now with _ | r
  · rw [hu] at h
    rcases hd : Coupon.calculateDiscount c
        (OrderController.createOrder userId items shippingCharge).subtotal
        (cartItemsOfOrder (OrderController.createOrder userId items shippingCharge))
      with r' | dr
    · rw [hd] at h
      exact Except.noConfusion h
    · rw [hd] at h
      dsimp only at h
      injection h with h
      injection h with h₁ h₂
      subst h₁
      exact ⟨_, rfl, rfl, rfl, rfl, rfl, rfl⟩
  · rw [hu] at h
    exact Except.noConfusion h

/-- C9 witness: the round trip on the concrete single-item order with
₹40 shipping and the flat-₹50 coupon. -/
theorem coupon_roundTrip_witness :
    ∃ o₂, CouponController.removeCoupon orderW9Applied = Except.ok o₂ ∧
      o₂.totalAmount = (OrderController.createOrder 7 orderItemsW9 40).totalAmount ∧
      o₂.subtotal = (OrderController.createOrder 7 orderItemsW9 40).subtotal ∧
      o₂.shippingCharge = 40 ∧
      orderW9Applied.subtotal = (OrderController.createOrder 7 orderItemsW9 40).subtotal ∧
      orderW9Applied.shippingCharge = 40 := by
  refine coupon_roundTrip 7 orderItemsW9 40 couponFixed50 42 5 orderW9Applied couponW9Applied ?_
  have hu : Coupon.canUserUse couponFixed50 7 5 = CheckResult.ok := by decide
  have hd : Coupon.calculateDiscount couponFixed50 orderW9.subtotal (cartItemsOfOrder orderW9)
      = DiscountResult.ok discountW9 := by
    norm_num [Coupon.calculateDiscount, Coupon.discountAmountCalc, couponFixed50,
      cartItemsOfOrder, orderW9, orderItemsW9, OrderController.createOrder, discountW9]
  unfold CouponController.applyCoupon
  rw [show OrderController.createOrder 7 orderItemsW9 40 = orderW9 from rfl, hu, hd]
  rfl

/-- C10: for an order created without an identifier, the
`pre('validate')` hook assigns exactly
`prefix ++ year ++ month ++ day ++ dailySequence`, with month and day
zero-padded to 2 digits and the daily sequence `1 + count` (of orders
already created since local midnight) zero-padded to 4 digits; an order
that already has an identifier is left untouched, and none of the other
embedded operations ever writes the `orderId` field. -/
theorem orderId_generation (o : Order) (pfx : String) (year month day count : ℕ) :
    (o.orderId = none → (Order.preValidate o pfx year month day count).orderId =
      some (pfx ++ toString year ++ jsPadStart (toString month) 2 '0' ++
        jsPadStart (toString day) 2 '0' ++ jsPadStart (toString (count + 1)) 4 '0')) ∧
    (∀ s, o.orderId = some s → Order.preValidate o pfx year month day count = o) ∧
    ((Order.calculateTotal o).orderId = o.orderId) ∧
    (∀ reason findProduct now o₂ calls,
      Order.cancelOrder o reason findProduct now = Except.ok (o₂, calls) →
        o₂.orderId = o.orderId) ∧
    (∀ reason now o₂, Order.requestReturn o reason now = Except.ok o₂ →
      o₂.orderId = o.orderId) ∧
    (∀ o₂, CouponController.removeCoupon o = Except.ok o₂ → o₂.orderId = o.orderId) := by
  refine ⟨?_, ?_, rfl, ?_, ?_, ?_⟩
  · intro h
    unfold Order.preValidate
    rw [h]
    rfl
  · intro s hs
    unfold Order.preValidate
    rw [hs]
  · intro reason findProduct now o₂ calls h
    unfold Order.cancelOrder at h
    split at h
    · exact Except.noConfusion h
    · injection h with h
      injection h with h₁ h₂
      rw [← h₁]
  · intro reason now o₂ h
    unfold Order.requestReturn at h
    split at h
    · exact Except.noConfusion h
    · rcases hda : o.deliveredAt with _ | d
      · rw [hda] at h
        exact Except.noConfusion h
      · rw [hda] at h
        dsimp only at h
        split at h
        · exact Except.noConfusion h
        · injection h with h
          rw [← h]
  · intro o₂ h
    unfold CouponController.removeCoupon at h
    rcases hc : o.coupon with _ | cp
    · rw [hc] at h
      exact Except.noConfusion h
    · rw [hc] at h
      injection h with h
      rw [← h]

/-- C10 witness: an order without an identifier, the default "ORD"
format, date 2026-01-05 and 41 orders already created today, yields
the identifier ORD202601050042. -/
theorem orderId_generation_witness :
    (Order.preValidate orderPlain "ORD" 2026 1 5 41).orderId =
      some ("ORD" ++ toString 2026 ++ jsPadStart (toString 1) 2 '0' ++
        jsPadStart (toString 5) 2 '0' ++ jsPadStart (toString 42) 4 '0') ∧
    ("ORD" ++ toString 2026 ++ jsPadStart (toString 1) 2 '0' ++
      jsPadStart (toString 5) 2 '0' ++ jsPadStart (toString 42) 4 '0') = "ORD202601050042" :=
  ⟨(orderId_generation orderPlain "ORD" 2026 1 5 41).1 rfl, rfl⟩
